import Mathlib

/-!
Shallow embedding of `src/python/penlog.py`: a structured event logger that
serializes log records as line-delimited JSON to an output sink.

Modelling conventions:
* Python dicts with string keys and string values become insertion-ordered
  association lists (`Dict`); assignment to an existing key updates the value
  in place, assignment to a fresh key appends (`dictSet`), matching CPython
  dict semantics.
* `MessageType` is a `str` enum; JSON serialization renders each member as
  its string value (`MessageType.toStr`).
* `socket.gethostname()` and `datetime.now().isoformat()` are ambient inputs:
  the host name is a parameter of construction, and each emission operation
  takes the `now` string (the isoformat of the wall clock at emission time).
* `print(json.dumps(msg), file=self.file, flush=self.flush)` becomes a
  `WriteEvent` carrying the sink, the record that was serialized, and the
  flush flag; the text written is `jsonDumps record ++ "\n"`.
* `json.dumps` uses its defaults: `ensure_ascii=True`, separators
  `", "` and `": "`, insertion key order.
* The module-level mutable `_logger` plus the stream of writes become an
  explicit `ModuleState`; the free functions thread it.
-/

set_option autoImplicit false

namespace Penlog

/-- Embedding of the `MessageType` str-enum. -/
inductive MessageType where
  | ERROR
  | WARNING
  | INFO
  | DEBUG
  | SUMMARY
  | READ
  | WRITE
  | PREAMBLE
deriving DecidableEq, Repr

/-- String value of each enum member, as serialized by `json.dumps`. -/
def MessageType.toStr : MessageType → String
  | .ERROR => "error"
  | .WARNING => "warning"
  | .INFO => "info"
  | .DEBUG => "debug"
  | .SUMMARY => "summary"
  | .READ => "read"
  | .WRITE => "write"
  | .PREAMBLE => "preamble"

/-- Python dict with string keys and values: insertion-ordered entry list. -/
abbrev Dict := List (String × String)

/-- Embedding of `msg[k] = v` on a Python dict: update in place if the key is
present, append otherwise. -/
def dictSet : Dict → String → String → Dict
  | [], k, v => [(k, v)]
  | (k', v') :: rest, k, v =>
    if k' = k then (k', v) :: rest else (k', v') :: dictSet rest k v

/-- Lookup of a key in a dict. -/
def dictGet : Dict → String → Option String
  | [], _ => none
  | (k', v) :: rest, k => if k' = k then some v else dictGet rest k

/-- Key list of a dict, in insertion order. -/
def keys (m : Dict) : List String := m.map Prod.fst

/-- Output sinks (`TextIO` objects): standard error or some other stream. -/
inductive Sink where
  | stderr
  | stream (id : Nat)
deriving DecidableEq, Repr

/-- Hex digit used by the `\uXXXX` escapes of `json.dumps` (lowercase). -/
def hexDigit (n : Nat) : Char :=
  if n < 10 then Char.ofNat (48 + n) else Char.ofNat (87 + n)

/-- Four-digit lowercase hex rendering of a code point below 0x10000. -/
def hex4 (n : Nat) : String :=
  String.mk [hexDigit (n / 4096 % 16), hexDigit (n / 256 % 16),
             hexDigit (n / 16 % 16), hexDigit (n % 16)]

/-- Unicode escape for a non-ASCII code point, with a surrogate pair above
0xFFFF, as produced by `json.dumps` with `ensure_ascii=True`. -/
def uEscape (n : Nat) : String :=
  if n < 65536 then "\\u" ++ hex4 n
  else
    let m := n - 65536
    "\\u" ++ hex4 (55296 + m / 1024) ++ "\\u" ++ hex4 (56320 + m % 1024)

/-- Escape of one character inside a JSON string literal, following CPython's
ASCII encoder: quote and backslash get a backslash escape, the named control
characters get their short forms, every other character outside 0x20..0x7E
gets a `\uXXXX` escape, and printable ASCII passes through. -/
def escapeChar (c : Char) : String :=
  if c = '"' then "\\\""
  else if c = '\\' then "\\\\"
  else if c = '\n' then "\\n"
  else if c = '\r' then "\\r"
  else if c = '\t' then "\\t"
  else if c = Char.ofNat 8 then "\\b"
  else if c = Char.ofNat 12 then "\\f"
  else if c.toNat < 32 then "\\u" ++ hex4 c.toNat
  else if c.toNat ≤ 126 then String.singleton c
  else uEscape c.toNat

/-- Escape of a character list, left to right. -/
def escapeList : List Char → String
  | [] => ""
  | c :: rest => escapeChar c ++ escapeList rest

/-- Escaped body of a JSON string literal for `s`. -/
def escapeString (s : String) : String := escapeList s.data

/-- JSON string literal for `s`: escaped body in double quotes. -/
def quoteStr (s : String) : String := "\"" ++ escapeString s ++ "\""

/-- One `"key": "value"` element of the serialized object. -/
def dumpsPair (p : String × String) : String :=
  quoteStr p.1 ++ ": " ++ quoteStr p.2

/-- Comma-separated body of the serialized object, in insertion order. -/
def dumpsEntries : Dict → String
  | [] => ""
  | [p] => dumpsPair p
  | p :: rest => dumpsPair p ++ ", " ++ dumpsEntries rest

/-- Embedding of `json.dumps(msg)` with default options for a dict whose
values are all strings. -/
def jsonDumps (m : Dict) : String := "\x7b" ++ dumpsEntries m ++ "\x7d"

/-- Embedding of the `Logger` object state. `__init__` stores the resolved
host name, the component, the flush flag and the sink; the `timefmt`
parameter is accepted but never stored. -/
structure Logger where
  host : String
  component : String
  flush : Bool
  file : Sink
deriving DecidableEq, Repr

/-- Embedding of `Logger.__init__`. `hostname` is the ambient result of
`socket.gethostname()`; `timefmt` is received and dropped, exactly as in the
source. -/
def Logger.init (hostname : String) (component : String) (timefmt : String)
    (flush : Bool) (file_ : Sink) : Logger :=
  { host := hostname, component := component, flush := flush, file := file_ }

/-- `Logger()` with every parameter at its default
(`component="root"`, `timefmt='%c'`, `flush=False`, `file_=sys.stderr`). -/
def Logger.initDefault (hostname : String) : Logger :=
  Logger.init hostname "root" "%c" false Sink.stderr

/-- One call of `print(json.dumps(msg), file=self.file, flush=self.flush)`:
the sink written to, the record handed to `json.dumps`, and the flush flag. -/
structure WriteEvent where
  sink : Sink
  record : Dict
  flushed : Bool
deriving DecidableEq, Repr

/-- Text written to the sink by the event: the serialized record plus the
trailing newline appended by `print`. -/
def WriteEvent.text (ev : WriteEvent) : String := jsonDumps ev.record ++ "\n"

/-- Embedding of `Logger._log`: inject `component`, `host` and the current
timestamp into the message dict; `now` stands for
`datetime.now().isoformat()` at emission time. -/
def Logger.logRecord (l : Logger) (msg : Dict) (now : String) : Dict :=
  dictSet (dictSet (dictSet msg "component" l.component) "host" l.host)
    "timestamp" now

/-- Embedding of `Logger._log` including the `print` call. -/
def Logger._log (l : Logger) (msg : Dict) (now : String) : WriteEvent :=
  { sink := l.file, record := l.logRecord msg now, flushed := l.flush }

/-- Embedding of `Logger.log_preamble`. -/
def Logger.log_preamble (l : Logger) (data : String) (now : String) :
    WriteEvent :=
  l._log [("host", l.host), ("type", MessageType.PREAMBLE.toStr),
          ("data", data)] now

/-- Embedding of `Logger.log_read`. -/
def Logger.log_read (l : Logger) (data : String) (handle : String)
    (now : String) : WriteEvent :=
  l._log [("type", MessageType.READ.toStr), ("handle", handle),
          ("data", data)] now

/-- Embedding of `Logger.log_write`. -/
def Logger.log_write (l : Logger) (data : String) (handle : String)
    (now : String) : WriteEvent :=
  l._log [("type", MessageType.WRITE.toStr), ("handle", handle),
          ("data", data)] now

/-- Embedding of `Logger.log_msg`; the Python default for `type_` is
`MessageType.INFO`, passed explicitly by callers that omit it. -/
def Logger.log_msg (l : Logger) (data : String) (type_ : MessageType)
    (now : String) : WriteEvent :=
  l._log [("type", type_.toStr), ("data", data)] now

/-- Embedding of `Logger.log_debug`. -/
def Logger.log_debug (l : Logger) (data : String) (now : String) :
    WriteEvent :=
  l.log_msg data MessageType.DEBUG now

/-- Embedding of `Logger.log_info`. -/
def Logger.log_info (l : Logger) (data : String) (now : String) :
    WriteEvent :=
  l.log_msg data MessageType.INFO now

/-- Embedding of `Logger.log_warning`. -/
def Logger.log_warning (l : Logger) (data : String) (now : String) :
    WriteEvent :=
  l.log_msg data MessageType.WARNING now

/-- Embedding of `Logger.log_error`. -/
def Logger.log_error (l : Logger) (data : String) (now : String) :
    WriteEvent :=
  l.log_msg data MessageType.ERROR now

/-- Embedding of `Logger.log_summary`. -/
def Logger.log_summary (l : Logger) (data : String) (now : String) :
    WriteEvent :=
  l.log_msg data MessageType.SUMMARY now

/-- Module-level state: the mutable default `_logger` and the sequence of
writes performed so far. -/
structure ModuleState where
  _logger : Logger
  out : List WriteEvent
deriving DecidableEq, Repr

/-- State at module import time: `_logger = Logger()` and nothing written. -/
def ModuleState.initial (hostname : String) : ModuleState :=
  { _logger := Logger.initDefault hostname, out := [] }

/-- Appending one write event to the module's output trace. -/
def ModuleState.emit (st : ModuleState) (ev : WriteEvent) : ModuleState :=
  { st with out := st.out ++ [ev] }

namespace Free

/-- Embedding of module-level `set_options`: rebinds `_logger` to
`Logger(component=component, timefmt=timefmt)`, so flush and sink stay at the
construction defaults. `hostname` is the ambient `socket.gethostname()`
result inside `Logger.__init__`. -/
def set_options (st : ModuleState) (hostname : String) (component : String)
    (timefmt : String) : ModuleState :=
  { st with
    _logger := Logger.init hostname component timefmt false Sink.stderr }

/-- Embedding of module-level `log_preamble`. -/
def log_preamble (st : ModuleState) (data : String) (now : String) :
    ModuleState :=
  st.emit (st._logger.log_preamble data now)

/-- Embedding of module-level `log_msg`. The body calls
`_logger.log_msg(data)` with `type_` omitted, so the method runs with its
default `MessageType.INFO` and the `type_` argument received here is
discarded, exactly as in the source. -/
def log_msg (st : ModuleState) (data : String) (type_ : MessageType)
    (now : String) : ModuleState :=
  st.emit (st._logger.log_msg data MessageType.INFO now)

/-- Embedding of module-level `log_write`. -/
def log_write (st : ModuleState) (data : String) (handle : String)
    (now : String) : ModuleState :=
  st.emit (st._logger.log_write data handle now)

/-- Embedding of module-level `log_read`. -/
def log_read (st : ModuleState) (data : String) (handle : String)
    (now : String) : ModuleState :=
  st.emit (st._logger.log_read data handle now)

/-- Embedding of module-level `log_debug`: calls the free `log_msg`. -/
def log_debug (st : ModuleState) (data : String) (now : String) :
    ModuleState :=
  log_msg st data MessageType.DEBUG now

/-- Embedding of module-level `log_info`: calls the free `log_msg`. -/
def log_info (st : ModuleState) (data : String) (now : String) :
    ModuleState :=
  log_msg st data MessageType.INFO now

/-- Embedding of module-level `log_warning`: calls the free `log_msg`. -/
def log_warning (st : ModuleState) (data : String) (now : String) :
    ModuleState :=
  log_msg st data MessageType.WARNING now

/-- Embedding of module-level `log_error`: calls the free `log_msg`. -/
def log_error (st : ModuleState) (data : String) (now : String) :
    ModuleState :=
  log_msg st data MessageType.ERROR now

/-- Embedding of module-level `log_summary`: calls the free `log_msg`. -/
def log_summary (st : ModuleState) (data : String) (now : String) :
    ModuleState :=
  log_msg st data MessageType.SUMMARY now

end Free

/-- One module-level emission call: a logging operation together with its
arguments and the clock reading at that call. `set_options` is a
configuration operation, not an emission, so it is not a constructor. -/
inductive LogCall where
  | preamble (data now : String)
  | read (data handle now : String)
  | write (data handle now : String)
  | msg (data : String) (type_ : MessageType) (now : String)
  | debug (data now : String)
  | info (data now : String)
  | warning (data now : String)
  | error (data now : String)
  | summary (data now : String)
deriving DecidableEq, Repr

/-- Execution of one emission call through the module-level free function. -/
def runCall (st : ModuleState) : LogCall → ModuleState
  | .preamble d n => Free.log_preamble st d n
  | .read d h n => Free.log_read st d h n
  | .write d h n => Free.log_write st d h n
  | .msg d t n => Free.log_msg st d t n
  | .debug d n => Free.log_debug st d n
  | .info d n => Free.log_info st d n
  | .warning d n => Free.log_warning st d n
  | .error d n => Free.log_error st d n
  | .summary d n => Free.log_summary st d n

/-- Execution of a sequence of emission calls, left to right. -/
def runCalls (st : ModuleState) (cs : List LogCall) : ModuleState :=
  cs.foldl runCall st

/-- Absence of the newline character from a string. -/
def newlineFree (s : String) : Prop := '\n' ∉ s.data

instance : DecidablePred newlineFree := fun s =>
  inferInstanceAs (Decidable ('\n' ∉ s.data))

/-- Single-line property of one write event: the text written for it has
exactly one newline character, and it is the trailing one. -/
def oneLine (ev : WriteEvent) : Prop :=
  ev.text.data.count '\n' = 1
  ∧ ∃ body, ev.text = body ++ "\n" ∧ newlineFree body

/-- Presence of the five always-required keys in an event's record. -/
def hasBaseKeys (ev : WriteEvent) : Prop :=
  "type" ∈ keys ev.record ∧ "data" ∈ keys ev.record
  ∧ "component" ∈ keys ev.record ∧ "host" ∈ keys ev.record
  ∧ "timestamp" ∈ keys ev.record

/-! ## Helper lemmas about the dict operations -/

theorem dictGet_dictSet_self (m : Dict) (k v : String) :
    dictGet (dictSet m k v) k = some v := by
  induction m with
  | nil => simp [dictSet, dictGet]
  | cons p rest ih =>
    obtain ⟨ka, va⟩ := p
    by_cases h : ka = k <;> simp [dictSet, dictGet, h, ih]

theorem dictGet_dictSet_ne (m : Dict) (k k' v : String) (h : k ≠ k') :
    dictGet (dictSet m k v) k' = dictGet m k' := by
  induction m with
  | nil => simp [dictSet, dictGet, h]
  | cons p rest ih =>
    obtain ⟨ka, va⟩ := p
    by_cases hk : ka = k <;> simp [dictSet, dictGet, hk, h, ih]

/-- Injected `component` value of any record built by `_log`. -/
theorem logRecord_component (l : Logger) (msg : Dict) (now : String) :
    dictGet (l.logRecord msg now) "component" = some l.component := by
  unfold Logger.logRecord
  rw [dictGet_dictSet_ne _ _ _ _ (by decide),
    dictGet_dictSet_ne _ _ _ _ (by decide), dictGet_dictSet_self]

/-- Injected `host` value of any record built by `_log`. -/
theorem logRecord_host (l : Logger) (msg : Dict) (now : String) :
    dictGet (l.logRecord msg now) "host" = some l.host := by
  unfold Logger.logRecord
  rw [dictGet_dictSet_ne _ _ _ _ (by decide), dictGet_dictSet_self]

/-- Injected `timestamp` value of any record built by `_log`. -/
theorem logRecord_timestamp (l : Logger) (msg : Dict) (now : String) :
    dictGet (l.logRecord msg now) "timestamp" = some now := by
  unfold Logger.logRecord
  rw [dictGet_dictSet_self]

/-! ## Concrete record shapes of the emission operations -/

theorem record_log_preamble (l : Logger) (d now : String) :
    (l.log_preamble d now).record =
      [("host", l.host), ("type", "preamble"), ("data", d),
       ("component", l.component), ("timestamp", now)] := rfl

theorem record_log_read (l : Logger) (d h now : String) :
    (l.log_read d h now).record =
      [("type", "read"), ("handle", h), ("data", d),
       ("component", l.component), ("host", l.host), ("timestamp", now)] :=
  rfl

theorem record_log_write (l : Logger) (d h now : String) :
    (l.log_write d h now).record =
      [("type", "write"), ("handle", h), ("data", d),
       ("component", l.component), ("host", l.host), ("timestamp", now)] :=
  rfl

theorem record_log_msg (l : Logger) (d now : String) (t : MessageType) :
    (l.log_msg d t now).record =
      [("type", t.toStr), ("data", d), ("component", l.component),
       ("host", l.host), ("timestamp", now)] := rfl

/-! ## Newline freedom of the serialized record -/

theorem newlineFree_append (a b : String) :
    newlineFree (a ++ b) ↔ newlineFree a ∧ newlineFree b := by
  simp [newlineFree, String.data_append, List.mem_append, not_or]

theorem hexDigit_ne_newline : ∀ m, m < 16 → hexDigit m ≠ '\n' := by decide

theorem newlineFree_hex4 (n : Nat) : newlineFree (hex4 n) := by
  have h16 : ∀ k : Nat, k % 16 < 16 := fun k => Nat.mod_lt _ (by norm_num)
  simp only [hex4, newlineFree, String.mk, List.mem_cons, List.not_mem_nil,
    not_or]
  refine ⟨?_, ?_, ?_, ?_, not_false⟩ <;>
    exact fun h => hexDigit_ne_newline _ (h16 _) h.symm

theorem newlineFree_uEscape (n : Nat) : newlineFree (uEscape n) := by
  unfold uEscape
  split
  · rw [newlineFree_append]
    exact ⟨by decide, newlineFree_hex4 _⟩
  · rw [newlineFree_append, newlineFree_append, newlineFree_append]
    exact ⟨⟨⟨by decide, newlineFree_hex4 _⟩, by decide⟩, newlineFree_hex4 _⟩

theorem newlineFree_escapeChar (c : Char) : newlineFree (escapeChar c) := by
  unfold escapeChar
  split_ifs with h1 h2 h3 h4 h5 h6 h7 h8 h9
  · decide
  · decide
  · decide
  · decide
  · decide
  · decide
  · decide
  · rw [newlineFree_append]
    exact ⟨by decide, newlineFree_hex4 _⟩
  · simpa [newlineFree, String.singleton] using fun h => h3 h.symm
  · exact newlineFree_uEscape _

theorem newlineFree_escapeList (cs : List Char) : newlineFree (escapeList cs) := by
  induction cs with
  | nil => decide
  | cons c rest ih =>
    rw [escapeList, newlineFree_append]
    exact ⟨newlineFree_escapeChar c, ih⟩

theorem newlineFree_escapeString (s : String) : newlineFree (escapeString s) :=
  newlineFree_escapeList s.data

theorem newlineFree_quoteStr (s : String) : newlineFree (quoteStr s) := by
  rw [quoteStr, newlineFree_append, newlineFree_append]
  exact ⟨⟨by decide, newlineFree_escapeString s⟩, by decide⟩

theorem newlineFree_dumpsPair (p : String × String) :
    newlineFree (dumpsPair p) := by
  rw [dumpsPair, newlineFree_append, newlineFree_append]
  exact ⟨⟨newlineFree_quoteStr _, by decide⟩, newlineFree_quoteStr _⟩

theorem newlineFree_dumpsEntries (m : Dict) :
    newlineFree (dumpsEntries m) := by
  induction m with
  | nil => decide
  | cons p rest ih =>
    cases rest with
    | nil => exact newlineFree_dumpsPair p
    | cons q rest' =>
      rw [show dumpsEntries (p :: q :: rest') =
            dumpsPair p ++ ", " ++ dumpsEntries (q :: rest') from rfl,
        newlineFree_append, newlineFree_append]
      exact ⟨⟨newlineFree_dumpsPair p, by decide⟩, ih⟩

theorem newlineFree_jsonDumps (m : Dict) : newlineFree (jsonDumps m) := by
  rw [jsonDumps, newlineFree_append, newlineFree_append]
  exact ⟨⟨by decide, newlineFree_dumpsEntries m⟩, by decide⟩

theorem oneLine_log (l : Logger) (msg : Dict) (now : String) :
    oneLine (l._log msg now) := by
  have hnf := newlineFree_jsonDumps (l._log msg now).record
  constructor
  · show (jsonDumps (l._log msg now).record ++ "\n").data.count '\n' = 1
    rw [String.data_append, List.count_append,
      List.count_eq_zero.mpr hnf]
    decide
  · exact ⟨jsonDumps (l._log msg now).record, rfl, hnf⟩

/-- Helper for the frame property: one emission call never rebinds the
module-level default logger. -/
theorem runCall_logger (st : ModuleState) (call : LogCall) :
    (runCall st call)._logger = st._logger := by
  cases call <;> rfl

/-! ## Claim theorems -/

/-- Claim C1 (code bug): the module-level free `log_msg` calls
`_logger.log_msg(data)` without forwarding its `type_` argument, so a free
`log_msg` call requesting type `error` emits a record with type `info`,
whereas the same call on the default logger instance itself emits type
`error`; the free convenience wrappers such as `log_error` route through the
free `log_msg` and therefore also emit `info`. -/
theorem free_log_msg_drops_requested_type :
    (Free.log_msg (ModuleState.initial "h") "x" MessageType.ERROR "t").out.map
        (fun ev => dictGet ev.record "type") = [some "info"]
    ∧ dictGet ((ModuleState.initial "h")._logger.log_msg "x"
        MessageType.ERROR "t").record "type" = some "error"
    ∧ (Free.log_error (ModuleState.initial "h") "x" "t").out.map
        (fun ev => dictGet ev.record "type") = [some "info"]
    ∧ dictGet ((ModuleState.initial "h")._logger.log_error "x" "t").record
        "type" = some "error" := by
  decide

/-- Claim C2 counterexample: at payload D = "x", the record emitted by
`log_preamble` does contain the `component` key, because `_log` injects
`component` into every message dict; the claimed key set without `component`
is wrong. -/
theorem log_preamble_component_present :
    "component" ∈ keys ((Logger.initDefault "h").log_preamble "x" "t").record := by
  decide

/-- Claim C2 as amended: for every payload string D, `log_preamble(D)` emits
a record whose keys are exactly `host`, `type`, `data`, `component`,
`timestamp` (in that insertion order), with type `preamble` and data D; the
`component` key is present. -/
theorem log_preamble_record_fields (l : Logger) (d now : String) :
    keys (l.log_preamble d now).record =
      ["host", "type", "data", "component", "timestamp"]
    ∧ dictGet (l.log_preamble d now).record "type" = some "preamble"
    ∧ dictGet (l.log_preamble d now).record "data" = some d :=
  ⟨rfl, rfl, rfl⟩

/-- Claim C3: for every message type T and payload D, the `log_msg` method
produces exactly one output line (one write whose text has a single,
trailing newline) whose record has type T and data D; with the omitted
`type_` argument, i.e. the Python default `MessageType.INFO`, the emitted
type is `info`. -/
theorem log_msg_emits_type_and_data (l : Logger) (d now : String)
    (t : MessageType) :
    (l.log_msg d t now).text.data.count '\n' = 1
    ∧ dictGet (l.log_msg d t now).record "type" = some t.toStr
    ∧ dictGet (l.log_msg d t now).record "data" = some d
    ∧ dictGet (l.log_msg d MessageType.INFO now).record "type" =
        some "info" :=
  ⟨(oneLine_log l [("type", t.toStr), ("data", d)] now).1, rfl, rfl, rfl⟩

/-- Claim C4: every record emitted by any logging operation contains the
keys `type`, `data`, `component`, `host` and `timestamp`, and the records of
`log_read` and `log_write` additionally contain `handle`. -/
theorem every_record_has_required_keys (l : Logger) (d h now : String)
    (t : MessageType) :
    hasBaseKeys (l.log_preamble d now)
    ∧ hasBaseKeys (l.log_read d h now)
    ∧ "handle" ∈ keys (l.log_read d h now).record
    ∧ hasBaseKeys (l.log_write d h now)
    ∧ "handle" ∈ keys (l.log_write d h now).record
    ∧ hasBaseKeys (l.log_msg d t now)
    ∧ hasBaseKeys (l.log_debug d now)
    ∧ hasBaseKeys (l.log_info d now)
    ∧ hasBaseKeys (l.log_warning d now)
    ∧ hasBaseKeys (l.log_error d now)
    ∧ hasBaseKeys (l.log_summary d now) := by
  refine ⟨?_, ?_, ?_, ?_, ?_, ?_, ?_, ?_, ?_, ?_, ?_⟩ <;>
    simp [hasBaseKeys, keys, record_log_preamble, record_log_read,
      record_log_write, record_log_msg, Logger.log_debug, Logger.log_info,
      Logger.log_warning, Logger.log_error, Logger.log_summary]

/-- Claim C5: for every message dict built by an emission operation, the
injection step of `_log` determines the final `component`, `host` and
`timestamp` values, overriding any earlier entry of the same key; in
particular the `host` entry pre-set by `log_preamble` is overwritten by the
injected host. -/
theorem injected_fields_take_precedence (l : Logger) (msg : Dict)
    (d now : String) :
    dictGet (l.logRecord msg now) "component" = some l.component
    ∧ dictGet (l.logRecord msg now) "host" = some l.host
    ∧ dictGet (l.logRecord msg now) "timestamp" = some now
    ∧ dictGet (l.log_preamble d now).record "host" = some l.host :=
  ⟨logRecord_component l msg now, logRecord_host l msg now,
   logRecord_timestamp l msg now,
   logRecord_host l [("host", l.host), ("type", "preamble"), ("data", d)]
     now⟩

/-- Claim C6: for every payload D and handle H, `log_read(D, H)` emits a
record with type `read`, data D and handle H, and `log_write(D, H)` emits a
record with type `write`, data D and handle H. -/
theorem log_read_log_write_fields (l : Logger) (d h now : String) :
    dictGet (l.log_read d h now).record "type" = some "read"
    ∧ dictGet (l.log_read d h now).record "data" = some d
    ∧ dictGet (l.log_read d h now).record "handle" = some h
    ∧ dictGet (l.log_write d h now).record "type" = some "write"
    ∧ dictGet (l.log_write d h now).record "data" = some d
    ∧ dictGet (l.log_write d h now).record "handle" = some h :=
  ⟨rfl, rfl, rfl, rfl, rfl, rfl⟩

/-- Claim C7: `set_options` replaces the default logger with a freshly
constructed instance whose component is the supplied name and whose flush
flag and sink are the construction defaults (no flushing, standard error);
it leaves the output trace unchanged, a subsequent default-delegated
emission appends one record carrying the new component, and an
independently-held logger instance still emits under its own component. -/
theorem set_options_replaces_default_logger (st : ModuleState)
    (hostname c tf d now : String) (t : MessageType) (l : Logger) :
    (Free.set_options st hostname c tf)._logger =
      Logger.init hostname c tf false Sink.stderr
    ∧ (Free.set_options st hostname c tf)._logger.component = c
    ∧ (Free.set_options st hostname c tf)._logger.flush = false
    ∧ (Free.set_options st hostname c tf)._logger.file = Sink.stderr
    ∧ (Free.set_options st hostname c tf).out = st.out
    ∧ (Free.log_msg (Free.set_options st hostname c tf) d t now).out =
        st.out ++
          [(Free.set_options st hostname c tf)._logger.log_msg d
            MessageType.INFO now]
    ∧ dictGet ((Free.set_options st hostname c tf)._logger.log_msg d t
        now).record "component" = some c
    ∧ dictGet (l.log_msg d t now).record "component" = some l.component :=
  ⟨rfl, rfl, rfl, rfl, rfl, rfl, rfl, rfl⟩

/-- Claim C8: a logger's host is fixed at construction, and no sequence of
emission calls changes the default logger's state: after running any list of
emission calls the module's logger equals the one before the sequence,
every field included. -/
theorem emissions_preserve_logger_state (st : ModuleState)
    (cs : List LogCall) (hostname c tf : String) (f : Bool) (s : Sink) :
    (runCalls st cs)._logger = st._logger
    ∧ (Logger.init hostname c tf f s).host = hostname := by
  constructor
  · induction cs generalizing st with
    | nil => rfl
    | cons cl rest ih =>
      rw [runCalls, List.foldl_cons]
      exact (ih (runCall st cl)).trans (runCall_logger st cl)
  · rfl

/-- Claim C9: the `timefmt` construction parameter has no observable effect:
two loggers built with different `timefmt` values but otherwise identical
arguments are equal, they produce identical outputs on every call sequence,
and the emitted timestamp is always the isoformat clock reading taken at
emission time. -/
theorem timefmt_without_effect (hostname c t1 t2 : String) (f : Bool)
    (s : Sink) (cs : List LogCall) (msg : Dict) (now : String) :
    Logger.init hostname c t1 f s = Logger.init hostname c t2 f s
    ∧ runCalls ⟨Logger.init hostname c t1 f s, []⟩ cs =
        runCalls ⟨Logger.init hostname c t2 f s, []⟩ cs
    ∧ dictGet ((Logger.init hostname c t1 f s).logRecord msg now)
        "timestamp" = some now :=
  ⟨rfl, rfl, logRecord_timestamp (Logger.init hostname c t1 f s) msg now⟩

/-- Claim C10: for every emission operation and all argument strings,
including payloads and handles containing newlines or other control
characters, the text written for one call is exactly one line: the JSON
escaping leaves no newline in the serialized record, and the only newline is
the single trailing one appended per record. -/
theorem each_call_writes_one_line (l : Logger) (msg : Dict)
    (d h now : String) (t : MessageType) :
    oneLine (l._log msg now)
    ∧ oneLine (l.log_preamble d now)
    ∧ oneLine (l.log_read d h now)
    ∧ oneLine (l.log_write d h now)
    ∧ oneLine (l.log_msg d t now) :=
  ⟨oneLine_log l msg now,
   oneLine_log l [("host", l.host), ("type", "preamble"), ("data", d)] now,
   oneLine_log l [("type", "read"), ("handle", h), ("data", d)] now,
   oneLine_log l [("type", "write"), ("handle", h), ("data", d)] now,
   oneLine_log l [("type", t.toStr), ("data", d)] now⟩

end Penlog
